import Mathlib

/-!
Verification of the AutoDevCrew orchestration core.

Shallow embedding of the pipeline in `main.py` (class `Orchestrator`,
class `AutoDevCrew`), the tester agent (`tester_agent.py`, function
`validate_code`), the devops agent (`devops_agent.py`, function
`build_and_deploy`) and the task store (`db/storage.py`).

Python side effects are made explicit:
- the orchestrator's `self.history` list is threaded as an explicit
  `List Message` argument and returned updated;
- capability invocations are recorded in a `List CapCall` trace so that
  "capability X is invoked n times" becomes a statement about the trace;
- capabilities may raise, which is modelled by `Except`-valued functions;
  `execute` returns the (possibly partial) history and trace together with
  either the result or the propagated exception;
- the sqlite task store is a `List StoreWrite` of performed inserts;
- the devops agent's subprocess invocations are an environment `DevOpsEnv`
  prescribing each `subprocess.run` outcome (a `RunResult` or a raised
  exception), and the temp file is an explicit `Bool` existence flag.
-/

/-- `Message.content` is untyped in Python (`content: Any`); the actual
contents are the four pipeline strings and, for the final handoff, the
summarizer's return value of opaque type `σ`. -/
inductive MsgContent (σ : Type) where
  | text (s : String)
  | record (r : σ)
deriving DecidableEq, Repr

/-- Embeds class `Message` of `main.py` (the timestamp field, a filesystem
metadata read, is not modelled; `msg_type` is always the default `"data"`). -/
structure Message (σ : Type) where
  sender : String
  receiver : String
  content : MsgContent σ
deriving DecidableEq, Repr

/-- One capability invocation performed by the orchestrator, with the
arguments it was given. -/
inductive CapCall where
  | generate (arg : String)
  | validate (arg : String)
  | deploy (arg : String)
  | summarize (task code report deploy_status : String)
deriving DecidableEq, Repr

def CapCall.isDeploy : CapCall → Bool
  | .deploy _ => true
  | _ => false

def CapCall.isSummarize : CapCall → Bool
  | .summarize _ _ _ _ => true
  | _ => false

/-- The four role capabilities the orchestrator composes
(`self.agents["engineer"].generate` etc. in `main.py`).  Each may raise,
modelled by `Except ε`. -/
structure Capabilities (ε σ : Type) where
  generate : String → Except ε String
  validate : String → Except ε (Bool × String)
  deploy : String → Except ε (Bool × String)
  summarize : String → String → String → String → Except ε σ

/-- Capabilities that return normally (never raise). -/
structure PureCapabilities (σ : Type) where
  generate : String → String
  validate : String → Bool × String
  deploy : String → Bool × String
  summarize : String → String → String → String → σ

def PureCapabilities.lift {ε σ : Type} (c : PureCapabilities σ) : Capabilities ε σ where
  generate := fun s => .ok (c.generate s)
  validate := fun s => .ok (c.validate s)
  deploy := fun s => .ok (c.deploy s)
  summarize := fun t co r d => .ok (c.summarize t co r d)

/-- The result dict built at the end of `Orchestrator.execute`
(`execution_time`, a wall-clock constant, is not modelled). -/
structure ExecutionResult (σ : Type) where
  success : Bool
  task : String
  generated_code : String
  test_report : String
  deployment_status : String
  summary : σ
  history : List (Message σ)
deriving DecidableEq, Repr

namespace Orchestrator

/-- Embeds `Orchestrator.execute` of `main.py`.  `history` is the
orchestrator's `self.history` at call time (set to `[]` by `__init__` and
never reset between calls).  Returns the outcome, the updated
`self.history`, and the trace of capability invocations made. -/
def execute {ε σ : Type} (caps : Capabilities ε σ) (task_description : String)
    (history : List (Message σ)) :
    Except ε (ExecutionResult σ) × List (Message σ) × List CapCall :=
  -- 1. User -> Engineer
  let h1 := history ++ [⟨"User", "Engineer", .text task_description⟩]
  match caps.generate task_description with
  | .error e => (.error e, h1, [.generate task_description])
  | .ok code =>
    -- 2. Engineer -> Tester
    let h2 := h1 ++ [⟨"Engineer", "Tester", .text code⟩]
    match caps.validate code with
    | .error e => (.error e, h2, [.generate task_description, .validate code])
    | .ok (valid, report) =>
      -- 3. Tester -> DevOps
      let h3 := h2 ++ [⟨"Tester", "DevOps", .text report⟩]
      -- gate: deploy only when valid, else synthesize the blocked status
      let deployStep : Except ε (Bool × String) × List CapCall :=
        if valid then (caps.deploy code, [.deploy code])
        else (.ok (false, "Blocked: Code Validation Failed"), [])
      match deployStep with
      | (.error e, dcalls) =>
          (.error e, h3, [.generate task_description, .validate code] ++ dcalls)
      | (.ok (deploy_success, deploy_status), dcalls) =>
        -- 4. DevOps -> Summarizer
        let h4 := h3 ++ [⟨"DevOps", "Summarizer", .text deploy_status⟩]
        match caps.summarize task_description code report deploy_status with
        | .error e =>
            (.error e, h4,
              [.generate task_description, .validate code] ++ dcalls
                ++ [.summarize task_description code report deploy_status])
        | .ok summary =>
          -- 5. Summarizer -> User
          let h5 := h4 ++ [⟨"Summarizer", "User", .record summary⟩]
          (.ok { success := valid && deploy_success
                 task := task_description
                 generated_code := code
                 test_report := report
                 deployment_status := deploy_status
                 summary := summary
                 history := h5 },
            h5,
            [.generate task_description, .validate code] ++ dcalls
              ++ [.summarize task_description code report deploy_status])

end Orchestrator

/-- The artifact produced by the generation stage of a run. -/
def runCode {σ : Type} (c : PureCapabilities σ) (task : String) : String :=
  c.generate task

/-- The `(valid, report)` pair produced by the validation stage of a run. -/
def runValid {σ : Type} (c : PureCapabilities σ) (task : String) : Bool × String :=
  c.validate (runCode c task)

/-- The `(deploy_success, deploy_status)` pair after the deploy gate. -/
def runDeployOutcome {σ : Type} (c : PureCapabilities σ) (task : String) : Bool × String :=
  if (runValid c task).1 then c.deploy (runCode c task)
  else (false, "Blocked: Code Validation Failed")

/-- The summary produced by the summarization stage of a run. -/
def runSummary {σ : Type} (c : PureCapabilities σ) (task : String) : σ :=
  c.summarize task (runCode c task) (runValid c task).2 (runDeployOutcome c task).2

/-- The five messages one run appends to the orchestrator's history. -/
def runMessages {σ : Type} (c : PureCapabilities σ) (task : String) : List (Message σ) :=
  [⟨"User", "Engineer", .text task⟩,
   ⟨"Engineer", "Tester", .text (runCode c task)⟩,
   ⟨"Tester", "DevOps", .text (runValid c task).2⟩,
   ⟨"DevOps", "Summarizer", .text (runDeployOutcome c task).2⟩,
   ⟨"Summarizer", "User", .record (runSummary c task)⟩]

/-- The capability-invocation trace of one run with non-raising capabilities. -/
def runTrace {σ : Type} (c : PureCapabilities σ) (task : String) : List CapCall :=
  [.generate task, .validate (runCode c task)]
    ++ (if (runValid c task).1 then [CapCall.deploy (runCode c task)] else [])
    ++ [.summarize task (runCode c task) (runValid c task).2 (runDeployOutcome c task).2]

/-- The result of one run with non-raising capabilities, started with
history `hist`. -/
def runResult {σ : Type} (c : PureCapabilities σ) (task : String)
    (hist : List (Message σ)) : ExecutionResult σ where
  success := (runValid c task).1 && (runDeployOutcome c task).1
  task := task
  generated_code := runCode c task
  test_report := (runValid c task).2
  deployment_status := (runDeployOutcome c task).2
  summary := runSummary c task
  history := hist ++ runMessages c task

/-- Closed-form characterization of `execute` for non-raising capabilities. -/
theorem execute_lift {ε σ : Type} (c : PureCapabilities σ) (task : String)
    (hist : List (Message σ)) :
    Orchestrator.execute (ε := ε) c.lift task hist =
      (.ok (runResult c task hist), hist ++ runMessages c task, runTrace c task) := by
  unfold Orchestrator.execute PureCapabilities.lift
  simp only
  rcases hv : c.validate (c.generate task) with ⟨valid, report⟩
  cases valid with
  | false =>
      rcases hd : c.deploy (c.generate task) with ⟨ds, dst⟩
      simp [runResult, runMessages, runTrace, runCode, runValid, runDeployOutcome,
        runSummary, hv, hd, List.append_assoc]
  | true =>
      rcases hd : c.deploy (c.generate task) with ⟨ds, dst⟩
      simp [runResult, runMessages, runTrace, runCode, runValid, runDeployOutcome,
        runSummary, hv, hd, List.append_assoc]

/-- Shared helper: a run whose validation verdict is `false` completes with
overall success `false`, the synthesized blocked status, and no deploy
invocation in its trace. -/
theorem run_invalid_blocked {ε σ : Type} (c : PureCapabilities σ)
    (task : String) (hist : List (Message σ))
    (hv : (c.validate (c.generate task)).1 = false) :
    (Orchestrator.execute (ε := ε) c.lift task hist).1 = .ok (runResult c task hist) ∧
    (runResult c task hist).success = false ∧
    (runResult c task hist).deployment_status = "Blocked: Code Validation Failed" ∧
    (Orchestrator.execute (ε := ε) c.lift task hist).2.2.countP CapCall.isDeploy = 0 := by
  refine ⟨?_, ?_, ?_, ?_⟩ <;>
    simp [execute_lift, runResult, runTrace, runDeployOutcome, runValid, runCode, hv,
      List.countP_cons, List.countP_nil, List.countP_append, CapCall.isDeploy,
      CapCall.isSummarize]

/-- One row inserted into the sqlite database by `db/storage.py`. -/
inductive StoreWrite (σ : Type) where
  | task (description : String)
  | code (task_id : Nat) (code : String)
  | test_log (task_id : Nat) (test_results : String)
  | deployment_log (task_id : Nat) (deployment_status : String)
  | final_report (task_id : Nat) (summary : σ)
deriving DecidableEq, Repr

def StoreWrite.isTask {σ : Type} : StoreWrite σ → Bool
  | .task _ => true
  | _ => false

/-- Embeds `save_task` of `db/storage.py`: inserts the description into the
`tasks` table and returns the fresh row id (`cursor.lastrowid`, modelled as
one more than the number of task rows already present). -/
def save_task {σ : Type} (store : List (StoreWrite σ)) (description : String) :
    List (StoreWrite σ) × Nat :=
  (store ++ [.task description], (store.filter StoreWrite.isTask).length + 1)

/-- Embeds `save_code` of `db/storage.py`. -/
def save_code {σ : Type} (store : List (StoreWrite σ)) (task_id : Nat) (code : String) :
    List (StoreWrite σ) :=
  store ++ [.code task_id code]

/-- Embeds `save_test_log` of `db/storage.py`. -/
def save_test_log {σ : Type} (store : List (StoreWrite σ)) (task_id : Nat)
    (test_results : String) : List (StoreWrite σ) :=
  store ++ [.test_log task_id test_results]

/-- Embeds `save_deployment_log` of `db/storage.py`. -/
def save_deployment_log {σ : Type} (store : List (StoreWrite σ)) (task_id : Nat)
    (deployment_status : String) : List (StoreWrite σ) :=
  store ++ [.deployment_log task_id deployment_status]

/-- Embeds `save_final_report` of `db/storage.py` (the json serialization of
the summary is kept opaque). -/
def save_final_report {σ : Type} (store : List (StoreWrite σ)) (task_id : Nat)
    (summary : σ) : List (StoreWrite σ) :=
  store ++ [.final_report task_id summary]

namespace AutoDevCrew

/-- Embeds `AutoDevCrew.process_task` of `main.py`: it first calls
`save_task` with the description, then runs the orchestrator; on success it
writes the four artifacts, and on an exception it re-raises after logging
(so the failure propagates and only the initial task write remains). -/
def process_task {ε σ : Type} (caps : Capabilities ε σ) (task_description : String)
    (history : List (Message σ)) (store : List (StoreWrite σ)) :
    Except ε (ExecutionResult σ) × List (Message σ) × List (StoreWrite σ) :=
  let st := save_task store task_description
  match Orchestrator.execute caps task_description history with
  | (.error e, h, _) => (.error e, h, st.1)
  | (.ok result, h, _) =>
    let s2 := save_code st.1 st.2 result.generated_code
    let s3 := save_test_log s2 st.2 result.test_report
    let s4 := save_deployment_log s3 st.2 result.deployment_status
    let s5 := save_final_report s4 st.2 result.summary
    (.ok result, h, s5)

end AutoDevCrew

/-- **C4** (amended: a failing run leaves exactly one Task Store write — the
task-description insert that `process_task` performs *before* execution —
and none of the four artifact writes; the artifact writes happen only after
a complete `ExecutionResult` exists).  When a capability raises, the
exception propagates out of `process_task` unchanged. -/
theorem C4_failure_propagates_single_task_write {ε σ : Type}
    (caps : Capabilities ε σ) (task : String) (hist : List (Message σ))
    (store : List (StoreWrite σ)) (e : ε)
    (hf : (Orchestrator.execute caps task hist).1 = .error e) :
    (AutoDevCrew.process_task caps task hist store).1 = .error e ∧
    (AutoDevCrew.process_task caps task hist store).2.2 = store ++ [.task task] := by
  unfold AutoDevCrew.process_task
  rcases hx : Orchestrator.execute caps task hist with ⟨out, h, tr⟩
  rw [hx] at hf
  simp only at hf
  subst hf
  simp [save_task]

/-- Capabilities whose generation stage raises. -/
def raiseCaps : Capabilities String String where
  generate := fun _ => .error "boom"
  validate := fun s => .ok (true, s)
  deploy := fun s => .ok (true, s)
  summarize := fun _ _ _ _ => .ok "summary"

/-- **C4 witness**: the amended theorem applied to capabilities whose
generation stage raises, on an initially empty store. -/
theorem C4_witness :
    (AutoDevCrew.process_task raiseCaps "t" [] []).1 = .error "boom" ∧
    (AutoDevCrew.process_task raiseCaps "t" [] []).2.2 = [.task "t"] :=
  C4_failure_propagates_single_task_write raiseCaps "t" [] [] "boom" rfl

/-- **C4 counterexample**: the claim as stated ("the Task Store receives
zero writes for that run" and "every Task Store write happens only after a
complete ExecutionResult exists") is false: when generation raises, the
failure does propagate, but the store has already received the
task-description write performed before execution. -/
theorem C4_counterexample_task_written_before_execute :
    (AutoDevCrew.process_task raiseCaps "t" [] []).1 = .error "boom" ∧
    (AutoDevCrew.process_task raiseCaps "t" [] []).2.2 ≠ ([] : List (StoreWrite String)) :=
  ⟨rfl, by decide⟩

/-- An exception raised by `ast.parse`: a `SyntaxError` (with its `str(e)`
rendering and its `lineno`), or any other exception. -/
inductive PyExc where
  | syntaxError (msg : String) (lineno : Nat)
  | genericError (msg : String)
deriving DecidableEq, Repr

/-- Python's `pat in s` substring test (occurrence count via `splitOn`). -/
def strContains (s pat : String) : Bool :=
  (s.splitOn pat).length != 1

/-- Python's `str.strip()`: removes leading and trailing whitespace
(structurally recursive so that it evaluates in the kernel). -/
def pyStrip (s : String) : String :=
  ⟨((s.data.dropWhile Char.isWhitespace).reverse.dropWhile Char.isWhitespace).reverse⟩

theorem string_eq_empty_of_length_zero {s : String} (h : s.length = 0) : s = "" := by
  cases s with
  | mk data =>
      cases data with
      | nil => rfl
      | cons c cs => simp [String.length] at h

/-- Embeds `validate_code` of `agents/tester_agent.py`.  `astParse` stands
for the Python standard library's `ast.parse`, a parameter of the model:
it either returns normally or raises. -/
def validate_code (astParse : String → Except PyExc Unit) (code : String) :
    Bool × String :=
  if code = "" ∨ (pyStrip code).length = 0 then
    (false, "❌ Error: No code provided for validation.")
  else
    match astParse code with
    | .ok _ =>
      let report := ["✅ Syntax Check: PASSED"]
      let report :=
        if strContains code.toLower "login" || strContains code.toLower "auth" then
          report ++ ["✅ Context Verification: Contains relevant keywords (Login/Auth)"]
        else report
      let n := (code.splitOn "\n").length
      let report :=
        if n > 5 then
          report ++ ["✅ Complexity: Code has " ++ toString n ++ " lines (Satisfactory)"]
        else report
      (true, String.intercalate "\n" report)
    | .error (.syntaxError msg lineno) =>
      (false, "❌ Syntax Error: " ++ msg ++ " at line " ++ toString lineno)
    | .error (.genericError msg) =>
      (false, "❌ Generic Error: " ++ msg)

theorem intercalate_go_exists (s : String) (as : List String) :
    ∀ acc : String, ∃ t : String, String.intercalate.go acc s as = acc ++ t := by
  induction as with
  | nil => intro acc; exact ⟨"", by simp [String.intercalate.go]⟩
  | cons a as ih =>
      intro acc
      obtain ⟨t, ht⟩ := ih (acc ++ (s ++ a))
      refine ⟨s ++ (a ++ t), ?_⟩
      have h0 : String.intercalate.go acc s (a :: as) =
          String.intercalate.go (acc ++ s ++ a) s as := rfl
      rw [h0, String.append_assoc acc s a, ht, String.append_assoc,
        String.append_assoc s a t]

theorem intercalate_cons_exists (s a : String) (l : List String) :
    ∃ t : String, String.intercalate s (a :: l) = a ++ t := by
  simpa [String.intercalate] using intercalate_go_exists s l a

/-- **C7**: for every empty or whitespace-only artifact, `validate_code`
returns `valid = false` with the explanatory no-code report (and, being a
total function, does not raise); consequently, when generation returns the
empty string, the deploy capability is never invoked and the run's overall
success is `false`. -/
theorem C7_empty_artifact_invalid_blocks_run
    (p : String → Except PyExc Unit) :
    (∀ code : String, pyStrip code = "" →
      validate_code p code = (false, "❌ Error: No code provided for validation.")) ∧
    (∀ (ε σ : Type) (d : String → Bool × String)
        (su : String → String → String → String → σ)
        (task : String) (hist : List (Message σ)),
      ∃ r : ExecutionResult σ,
        (Orchestrator.execute (ε := ε)
            (PureCapabilities.lift ⟨fun _ => "", validate_code p, d, su⟩) task hist).1
          = .ok r ∧
        r.success = false ∧
        (Orchestrator.execute (ε := ε)
            (PureCapabilities.lift ⟨fun _ => "", validate_code p, d, su⟩) task hist).2.2.countP
          CapCall.isDeploy = 0) := by
  have hempty : ∀ code : String, pyStrip code = "" →
      validate_code p code = (false, "❌ Error: No code provided for validation.") := by
    intro code hc
    have h0 : (pyStrip code).length = 0 := by rw [hc]; rfl
    simp [validate_code, h0]
  refine ⟨hempty, ?_⟩
  intro ε σ d su task hist
  have hv : ((⟨fun _ => "", validate_code p, d, su⟩ :
      PureCapabilities σ).validate ((⟨fun _ => "", validate_code p, d, su⟩ :
      PureCapabilities σ).generate task)).1 = false := by
    simp [hempty "" (by decide)]
  obtain ⟨h1, h2, _, h4⟩ :=
    run_invalid_blocked (ε := ε) ⟨fun _ => "", validate_code p, d, su⟩ task hist hv
  exact ⟨_, h1, h2, h4⟩

/-- **C7 witness**: the theorem applied to a concrete parse oracle, a
whitespace-only artifact, and a concrete run. -/
theorem C7_witness :
    validate_code (fun _ => Except.ok ()) "  " =
      (false, "❌ Error: No code provided for validation.") ∧
    ∃ r : ExecutionResult String,
      (Orchestrator.execute (ε := Unit)
          (PureCapabilities.lift
            ⟨fun _ => "", validate_code (fun _ => Except.ok ()),
             fun _ => (true, "deployed"), fun _ _ _ _ => "summary"⟩) "task" []).1
        = .ok r ∧
      r.success = false ∧
      (Orchestrator.execute (ε := Unit)
          (PureCapabilities.lift
            ⟨fun _ => "", validate_code (fun _ => Except.ok ()),
             fun _ => (true, "deployed"), fun _ _ _ _ => "summary"⟩) "task" []).2.2.countP
        CapCall.isDeploy = 0 :=
  ⟨(C7_empty_artifact_invalid_blocks_run (fun _ => Except.ok ())).1 "  " (by decide),
   (C7_empty_artifact_invalid_blocks_run (fun _ => Except.ok ())).2 Unit String
     (fun _ => (true, "deployed")) (fun _ _ _ _ => "summary") "task" []⟩

/-- **C8** (amended: an artifact that parses successfully is classified
valid only when it has non-whitespace content; a whitespace-only artifact
parses successfully under `ast.parse` yet is classified invalid with the
no-code message).  Under a parse oracle that accepts whitespace-only
sources (as `ast.parse` does), every artifact on which parsing raises a
`SyntaxError` is classified invalid with a diagnostic naming the error and
its line number, and every artifact with non-whitespace content that parses
successfully is classified valid with a report beginning with the passed
syntax check. -/
theorem C8_syntax_error_diagnostic_and_pass
    (p : String → Except PyExc Unit)
    (hp : ∀ s : String, pyStrip s = "" → p s = .ok ())
    (code : String) :
    (∀ (msg : String) (lineno : Nat),
      p code = .error (.syntaxError msg lineno) →
      validate_code p code =
        (false, "❌ Syntax Error: " ++ msg ++ " at line " ++ toString lineno)) ∧
    (pyStrip code ≠ "" → p code = .ok () →
      (validate_code p code).1 = true ∧
      ∃ t : String, (validate_code p code).2 = "✅ Syntax Check: PASSED" ++ t) := by
  have htrim : ∀ h : ¬pyStrip code = "", ¬(code = "" ∨ (pyStrip code).length = 0) := by
    intro h
    rintro (rfl | hc)
    · exact h rfl
    · exact h (string_eq_empty_of_length_zero hc)
  constructor
  · intro msg lineno herr
    have hne : ¬pyStrip code = "" := by
      intro hc
      rw [hp code hc] at herr
      exact Except.noConfusion herr
    simp [validate_code, htrim hne, herr]
  · intro hne hok
    constructor
    · simp [validate_code, htrim hne, hok]
    · rcases h1 : strContains code.toLower "login" || strContains code.toLower "auth"
        with _ | _ <;>
        by_cases h2 : (code.splitOn "\n").length > 5 <;>
          · simp [validate_code, htrim hne, hok, h1, h2]
            exact intercalate_cons_exists _ _ _

/-- **C8 counterexample**: the claim as stated is false: the artifact
`" "` (whitespace-only, hence accepted by `ast.parse`) parses successfully
yet `validate_code` classifies it as invalid. -/
theorem C8_counterexample_whitespace_parses_but_invalid :
    (validate_code (fun _ => Except.ok ()) " ").1 ≠ true := by
  decide

/-- **C8 witness**: the theorem applied to a concrete oracle that raises a
`SyntaxError` at line 1 on `"def f(:"` and accepts everything else, at both
a malformed and a well-formed artifact. -/
theorem C8_witness :
    (validate_code
        (fun s => if s = "def f(:"
          then .error (.syntaxError "invalid syntax" 1) else .ok ())
        "def f(:") =
      (false, "❌ Syntax Error: invalid syntax at line 1") ∧
    (validate_code
        (fun s => if s = "def f(:"
          then .error (.syntaxError "invalid syntax" 1) else .ok ())
        "x = 1").1 = true := by
  have hp : ∀ s : String, pyStrip s = "" →
      (fun s => if s = "def f(:"
        then Except.error (PyExc.syntaxError "invalid syntax" 1) else .ok ()) s = .ok () := by
    intro s hs
    have hne : ¬s = "def f(:" := by
      intro h
      rw [h] at hs
      exact absurd hs (by decide)
    simp [hne]
  constructor
  · exact (C8_syntax_error_diagnostic_and_pass _ hp "def f(:").1 "invalid syntax" 1
      (by simp)
  · exact ((C8_syntax_error_diagnostic_and_pass _ hp "x = 1").2 (by decide) (by simp)).1

/-- Result of one `subprocess.run` invocation (`capture_output=True`). -/
structure RunResult where
  returncode : Int
  stdout : String
  stderr : String
deriving DecidableEq, Repr

/-- Environment of one `build_and_deploy` call: the outcome of each of its
two `subprocess.run` invocations (the pytest run on the temp file, then the
direct execution of the temp file).  `.error e` models the invocation
itself raising an exception with rendering `e`; a child process that merely
fails is a normal `RunResult` with non-zero `returncode`/non-empty
`stderr`. -/
structure DevOpsEnv where
  test_run : Except String RunResult
  exec_run : Except String RunResult

/-- The `finally` clause of `build_and_deploy`:
`if os.path.exists(temp_path): os.unlink(temp_path)`. -/
def finally_unlink (temp_exists : Bool) : Bool :=
  if temp_exists then false else temp_exists

/-- Embeds `build_and_deploy` of `agents/devops_agent.py`.  The temp file
is an explicit existence flag: created (set) before the `try` block, and
the `finally` clause unlinks it on every exit path of the body, including
the `except` branches.  Returns the `(success, log)` pair together with the
final state of the temp-file flag. -/
def build_and_deploy (env : DevOpsEnv) (code : String) : (Bool × String) × Bool :=
  let temp_exists := true
  let body : Bool × String :=
    let output_log := ["--- Testing Phase ---"]
    match env.test_run with
    | .error e => (false, "Deployment error: " ++ e)
    | .ok test_result =>
      if test_result.returncode ≠ 0 ∧ test_result.returncode ≠ 5 then
        (false, String.intercalate "\n" (output_log ++
          ["❌ Tests Failed:\n" ++
            (if test_result.stderr ≠ "" then test_result.stderr else test_result.stdout)]))
      else
        let output_log := output_log ++
          ["✅ Tests Passed (or none found).", "\n--- Execution Phase ---"]
        match env.exec_run with
        | .error e => (false, "Deployment error: " ++ e)
        | .ok exec_result =>
          let output_log :=
            if exec_result.stdout ≠ "" then output_log ++ ["STDOUT:\n" ++ exec_result.stdout]
            else output_log
          let output_log :=
            if exec_result.stderr ≠ "" then output_log ++ ["STDERR:\n" ++ exec_result.stderr]
            else output_log
          let output_log :=
            if exec_result.stdout = "" ∧ exec_result.stderr = "" then
              output_log ++ ["ℹ️ Code executed with no direct output."]
            else output_log
          (true, String.intercalate "\n" (output_log ++ ["\n✅ Deployed to Virtual Environment!"]))
  (body, finally_unlink temp_exists)

/-- **C9**: on every execution path of `build_and_deploy` — test failure,
successful deployment, internal exception in either subprocess invocation —
the temp file created at entry no longer exists when the function
returns. -/
theorem C9_temp_file_always_removed (env : DevOpsEnv) (code : String) :
    (build_and_deploy env code).2 = false := by
  simp [build_and_deploy, finally_unlink]

/-- **C10**: the deploy stage succeeds exactly when the pytest subprocess
returns normally with exit code 0 or 5 and the execution subprocess returns
normally (no internal exception); an artifact whose execution produces
error output (non-empty stderr) still deploys successfully, the stderr
being only appended to the log. -/
theorem C10_success_iff_tests_pass (env : DevOpsEnv) (code : String) :
    ((build_and_deploy env code).1.1 = true ↔
      (∃ tr : RunResult, env.test_run = .ok tr ∧
        (tr.returncode = 0 ∨ tr.returncode = 5)) ∧
      ∃ er : RunResult, env.exec_run = .ok er) ∧
    (∀ tr er : RunResult, env.test_run = .ok tr →
      (tr.returncode = 0 ∨ tr.returncode = 5) → env.exec_run = .ok er →
      er.stderr ≠ "" →
      (build_and_deploy env code).1 =
        (true, String.intercalate "\n"
          ((["--- Testing Phase ---", "✅ Tests Passed (or none found).",
             "\n--- Execution Phase ---"] ++
            (if er.stdout ≠ "" then ["STDOUT:\n" ++ er.stdout] else []) ++
            ["STDERR:\n" ++ er.stderr]) ++
           ["\n✅ Deployed to Virtual Environment!"]))) := by
  obtain ⟨trun, erun⟩ := env
  rcases trun with e | tr
  · simp [build_and_deploy]
  · by_cases hrc : tr.returncode ≠ 0 ∧ tr.returncode ≠ 5
    · constructor
      · simp only [build_and_deploy, if_pos hrc]
        simp only [Bool.false_eq_true, false_iff]
        rintro ⟨⟨tr', htr', hor⟩, -⟩
        obtain rfl : tr = tr' := by
          simpa using htr'
        rcases hor with h0 | h5
        · exact hrc.1 h0
        · exact hrc.2 h5
      · intro tr' er htr' hor _ _
        obtain rfl : tr = tr' := by simpa using htr'
        rcases hor with h0 | h5
        · exact absurd h0 hrc.1
        · exact absurd h5 hrc.2
    · rcases erun with e2 | er
      · constructor
        · simp [build_and_deploy, hrc]
        · intro _ _ _ _ hex
          exact absurd hex (by simp)
      · constructor
        · simp only [build_and_deploy, if_neg hrc]
          constructor
          · intro _
            refine ⟨⟨tr, rfl, ?_⟩, ⟨er, rfl⟩⟩
            rcases Decidable.em (tr.returncode = 0) with h0 | h0
            · exact Or.inl h0
            · rcases Decidable.em (tr.returncode = 5) with h5 | h5
              · exact Or.inr h5
              · exact absurd ⟨h0, h5⟩ hrc
          · intro _
            simp
        · intro tr' er' _ _ hex hes
          obtain rfl : er = er' := by simpa using hex
          have hno : ¬(er.stdout = "" ∧ er.stderr = "") := fun h => hes h.2
          simp only [build_and_deploy, if_neg hrc, if_pos hes, if_neg hno]
          by_cases hso : er.stdout ≠ "" <;>
            simp [hso, List.append_assoc]

/-- A devops environment whose pytest run exits 0 and whose execution run
fails at runtime (exit 1, output only on stderr). -/
def devopsEnv0 : DevOpsEnv where
  test_run := .ok ⟨0, "", ""⟩
  exec_run := .ok ⟨1, "", "Traceback"⟩

/-- **C10 witness**: the theorem applied to `devopsEnv0`: the run deploys
successfully even though execution produced stderr, which lands in the
log. -/
theorem C10_witness :
    (build_and_deploy devopsEnv0 "print(x)").1 =
      (true, String.intercalate "\n"
        ((["--- Testing Phase ---", "✅ Tests Passed (or none found).",
           "\n--- Execution Phase ---"] ++
          (if ("" : String) ≠ "" then ["STDOUT:\n" ++ ""] else []) ++
          ["STDERR:\n" ++ "Traceback"]) ++
         ["\n✅ Deployed to Virtual Environment!"])) :=
  (C10_success_iff_tests_pass devopsEnv0 "print(x)").2 ⟨0, "", ""⟩ ⟨1, "", "Traceback"⟩
    rfl (Or.inl rfl) rfl (by decide)

/-- Projects the `.ok` payload out of an orchestration outcome. -/
def okResult {ε σ : Type} : Except ε (ExecutionResult σ) → Option (ExecutionResult σ)
  | .ok r => some r
  | .error _ => none

/-- Concrete non-raising capabilities used for counterexample runs. -/
def sampleCaps : PureCapabilities String where
  generate := fun _ => "code"
  validate := fun _ => (true, "report")
  deploy := fun _ => (true, "deployed")
  summarize := fun _ _ _ _ => "summary"

/-- Concrete capabilities whose validation stage rejects the artifact. -/
def blockCaps : PureCapabilities String where
  generate := fun _ => "bad code"
  validate := fun _ => (false, "failed")
  deploy := fun _ => (true, "deployed")
  summarize := fun _ _ _ _ => "summary"

/-- **C1** (amended: on a run started with an empty history, i.e. the
orchestrator's first run).  For every task description, including the empty
string, `execute` succeeds and its result's history has exactly 5 messages,
in the fixed sender/receiver order User→Engineer, Engineer→Tester,
Tester→DevOps, DevOps→Summarizer, Summarizer→User, and the first message's
content is the input task description verbatim. -/
theorem C1_first_run_history_five_fixed_order {ε σ : Type}
    (c : PureCapabilities σ) (task : String) :
    ∃ r : ExecutionResult σ,
      (Orchestrator.execute (ε := ε) c.lift task []).1 = .ok r ∧
      r.history.length = 5 ∧
      r.history.map (fun m => (m.sender, m.receiver)) =
        [("User", "Engineer"), ("Engineer", "Tester"), ("Tester", "DevOps"),
         ("DevOps", "Summarizer"), ("Summarizer", "User")] ∧
      r.history.head?.map Message.content = some (.text task) := by
  refine ⟨runResult c task [], ?_, ?_, ?_, ?_⟩ <;>
    simp [execute_lift, runResult, runMessages]

/-- **C1 counterexample**: the claim as stated fails on the second call to
`execute` on the same orchestrator (the program reuses one orchestrator
across tasks): the second result's history has 10 messages, not 5, because
`self.history` persists between runs. -/
theorem C1_counterexample_second_run_ten_messages :
    ((okResult (Orchestrator.execute (ε := Unit) sampleCaps.lift "second task"
        (Orchestrator.execute (ε := Unit) sampleCaps.lift "first task" []).2.1).1).map
      fun r => r.history.length) = some 10 := by
  decide

/-- **C2**: whenever the validation capability returns `valid = false` for
the generated artifact, the run succeeds with overall success `false`,
deployment status exactly `"Blocked: Code Validation Failed"`, and the
deploy capability is invoked zero times. -/
theorem C2_invalid_blocks_deploy {ε σ : Type} (c : PureCapabilities σ)
    (task : String) (hist : List (Message σ))
    (hv : (c.validate (c.generate task)).1 = false) :
    ∃ r : ExecutionResult σ,
      (Orchestrator.execute (ε := ε) c.lift task hist).1 = .ok r ∧
      r.success = false ∧
      r.deployment_status = "Blocked: Code Validation Failed" ∧
      (Orchestrator.execute (ε := ε) c.lift task hist).2.2.countP CapCall.isDeploy = 0 := by
  refine ⟨runResult c task hist, ?_, ?_, ?_, ?_⟩ <;>
    simp [execute_lift, runResult, runTrace, runDeployOutcome, runValid, runCode, hv,
      List.countP_cons, List.countP_nil, List.countP_append, CapCall.isDeploy,
      CapCall.isSummarize]

/-- **C2 witness**: the theorem applied to concrete capabilities whose
validation returns `false`. -/
theorem C2_witness :
    ∃ r : ExecutionResult String,
      (Orchestrator.execute (ε := Unit) blockCaps.lift "t" []).1 = .ok r ∧
      r.success = false ∧
      r.deployment_status = "Blocked: Code Validation Failed" ∧
      (Orchestrator.execute (ε := Unit) blockCaps.lift "t" []).2.2.countP CapCall.isDeploy = 0 :=
  C2_invalid_blocks_deploy blockCaps "t" [] (by decide)

/-- **C3**: the overall success flag of the result is `true` exactly when
the validation stage returned `valid = true` and the deploy stage (the
capability's outcome when invoked, the synthesized blocked outcome
otherwise) returned `success = true`. -/
theorem C3_success_iff_valid_and_deployed {ε σ : Type} (c : PureCapabilities σ)
    (task : String) (hist : List (Message σ)) :
    ∃ r : ExecutionResult σ,
      (Orchestrator.execute (ε := ε) c.lift task hist).1 = .ok r ∧
      (r.success = true ↔
        (c.validate (c.generate task)).1 = true ∧
        (if (c.validate (c.generate task)).1 then c.deploy (c.generate task)
         else (false, "Blocked: Code Validation Failed")).1 = true) := by
  refine ⟨runResult c task hist, by simp [execute_lift], ?_⟩
  simp only [runResult, runDeployOutcome, runValid, runCode, Bool.and_eq_true]

/-- **C5** (amended: runs on fresh orchestrators hold exactly their own
five messages; when the same orchestrator is reused, the second result's
history is the first run's history followed by the second run's own five
messages — the runs are combined, contrary to the original claim). -/
theorem C5_history_accumulates_across_runs {ε σ : Type}
    (c₁ c₂ : PureCapabilities σ) (t₁ t₂ : String) :
    ∃ r₁ r₂ r₂' : ExecutionResult σ,
      (Orchestrator.execute (ε := ε) c₁.lift t₁ []).1 = .ok r₁ ∧
      (Orchestrator.execute (ε := ε) c₂.lift t₂ []).1 = .ok r₂ ∧
      (Orchestrator.execute (ε := ε) c₂.lift t₂ r₁.history).1 = .ok r₂' ∧
      r₁.history.length = 5 ∧ r₂.history.length = 5 ∧
      r₂'.history = r₁.history ++ r₂.history := by
  refine ⟨runResult c₁ t₁ [], runResult c₂ t₂ [],
    runResult c₂ t₂ (runResult c₁ t₁ []).history, ?_, ?_, ?_, ?_, ?_, ?_⟩ <;>
    simp [execute_lift, runResult, runMessages]

/-- **C5 counterexample**: on the same orchestrator, the second call's
result history does not hold only that call's own messages: it has 10
entries and its first five are exactly the first run's messages. -/
theorem C5_counterexample_histories_combined :
    ((okResult (Orchestrator.execute (ε := Unit) sampleCaps.lift "task two"
        (Orchestrator.execute (ε := Unit) sampleCaps.lift "task one" []).2.1).1).map
      fun r => (r.history.length, r.history.take 5)) =
      some (10,
        [⟨"User", "Engineer", .text "task one"⟩,
         ⟨"Engineer", "Tester", .text "code"⟩,
         ⟨"Tester", "DevOps", .text "report"⟩,
         ⟨"DevOps", "Summarizer", .text "deployed"⟩,
         ⟨"Summarizer", "User", .record "summary"⟩]) := by
  decide

/-- **C6**: in every run the summarization capability is invoked exactly
once, with the four arguments (task description, generated artifact,
validation report, deployment status). -/
theorem C6_summarize_invoked_exactly_once {ε σ : Type} (c : PureCapabilities σ)
    (task : String) (hist : List (Message σ)) :
    (Orchestrator.execute (ε := ε) c.lift task hist).2.2.countP CapCall.isSummarize = 1 ∧
    (Orchestrator.execute (ε := ε) c.lift task hist).2.2.filter CapCall.isSummarize =
      [.summarize task (c.generate task) (c.validate (c.generate task)).2
        (if (c.validate (c.generate task)).1 then c.deploy (c.generate task)
         else (false, "Blocked: Code Validation Failed")).2] := by
  constructor <;>
    · rcases hv : (c.validate (c.generate task)).1 with _ | _ <;>
        simp [execute_lift, runTrace, runDeployOutcome, runValid, runCode, hv,
          List.countP_cons, List.countP_nil, List.countP_append, List.filter_append,
          CapCall.isDeploy, CapCall.isSummarize]
